import Mathlib

/-!
Shallow embedding of `src/app.py`, a Flask ingestion service.

The endpoint `process_data` (`POST /process`) iterates the posted JSON items.
For each item it
  - normalizes the subject with `item.get("subject", "").strip().lower()`,
  - probes the two MongoDB collections `taskBody` and `repliesBody` with
    `find_one({"subject": subject})` and skips the item on a hit,
  - calls `extract_candidate_data(item.get("body", ""))` (an external
    OpenAI-backed service, fallible),
  - merges `final_data = {**item, **candidate_data}`,
  - inserts `final_data` into `taskBody` when the normalized subject contains
    "interview support" and does not start with "re:", else into `repliesBody`,
  - posts `final_data` (augmented with `log_timestamp` and `collection_type`)
    to the Logflare sink via `log_to_logflare`, appending a warning result
    entry when that emission raises.

External collaborators (the extraction service, the MongoDB insert outcome,
the Logflare sink, the wall clock) are modelled as oracle functions bundled
in `Env`.  Records are modelled as association lists of string keys and
string values with Python-dict lookup semantics.
-/

namespace DataExtraction

/-- A JSON-object record: string keys to string values, first binding wins on
lookup (Python dicts have unique keys; lookup order models dict indexing). -/
abbrev Record := List (String × String)

/-- Lookup of a key in a record, first binding wins (Python `d[k]` / `d.get(k)`). -/
def dget : Record → String → Option String
  | [], _ => none
  | (k, v) :: rest, key => if k = key then some v else dget rest key

/-- Python dict item assignment `d[k] = v`: the new binding shadows any old one. -/
def dictSet (d : Record) (k v : String) : Record := (k, v) :: d

/-- Python dict merge `{**a, **b}`: on key collision `b` wins (under `dget`,
bindings of `b` shadow those of `a`). -/
def pyMerge (a b : Record) : Record := b ++ a

/-- Whitespace characters removed by Python `str.strip()`. -/
def isPySpace (c : Char) : Bool :=
  c == ' ' || c == '\t' || c == '\n' || c == '\r' || c == '\x0b' || c == '\x0c'

/-- Python `str.strip()`: drop leading and trailing whitespace. -/
def pyStrip (s : String) : String :=
  String.mk (((s.toList.dropWhile isPySpace).reverse.dropWhile isPySpace).reverse)

/-- Python `str.lower()` (agrees with it on the ASCII range used here). -/
def pyLower (s : String) : String := String.mk (s.toList.map Char.toLower)

/-- Python `s.startswith(pre)`. -/
def pyStartsWith (s pre : String) : Bool := pre.toList.isPrefixOf s.toList

/-- Helper for substring containment: does `needle` occur in the list? -/
def pyContainsAux (needle : List Char) : List Char → Bool
  | [] => needle.isEmpty
  | c :: rest => needle.isPrefixOf (c :: rest) || pyContainsAux needle rest

/-- Python `sub in s` on strings: substring containment. -/
def pyContains (s sub : String) : Bool := pyContainsAux sub.toList s.toList

/-- MongoDB `collection.find_one({"subject": s})` used for its truthiness:
a stored document matches when its `subject` field equals `s` exactly. -/
def find_one_subject (coll : List Record) (s : String) : Bool :=
  coll.any (fun r => dget r "subject" == some s)

/-- The two MongoDB collections `taskBody_collection` and `repliesBody_collection`. -/
structure Store where
  taskBody : List Record
  repliesBody : List Record
deriving DecidableEq, Repr

/-- External collaborators of the pipeline, as oracles:
`extract` is `extract_candidate_data` (body text to parsed JSON dict, or the
exception message of a transport/parse failure); `insertErr` gives the
outcome of `insert_one` on a document (`none` = success); `logErr` gives the
outcome of `log_to_logflare` on a payload (`none` = success); `now` is
`datetime.utcnow().isoformat() + "Z"`. -/
structure Env where
  extract : String → Except String Record
  insertErr : Record → Option String
  logErr : Record → Option String
  now : String

/-- One entry of the per-item `results` list: a dict with keys `id`,
`status`, and optionally `message` or `collection`. -/
structure ResultEntry where
  id : String
  status : String
  message : Option String
  collection : Option String
deriving DecidableEq, Repr

/-- Outcome of processing: the stores after, the result entries appended,
and the payloads posted to the Logflare sink. -/
structure ItemOut where
  store : Store
  results : List ResultEntry
  emitted : List Record
deriving DecidableEq, Repr

/-- Python `item.get("id", "unknown")` (src/app.py, line 141). -/
def item_ident (item : Record) : String := (dget item "id").getD "unknown"

/-- Python `item.get("subject", "").strip().lower()` (src/app.py, line 142):
the normalized subject used for the dedupe probe and the classification. -/
def item_subject (item : Record) : String :=
  pyLower (pyStrip ((dget item "subject").getD ""))

/-- The classification test of src/app.py, line 167:
`"interview support" in subject and not subject.startswith("re:")`,
applied to the normalized subject. -/
def classify_to_task (subject : String) : Bool :=
  pyContains subject "interview support" && !(pyStartsWith subject "re:")

/-- The `collection_type` string set in the branches of src/app.py,
lines 168 and 172. -/
def collection_name (subject : String) : String :=
  if classify_to_task subject then "taskBody" else "repliesBody"

/-- The classified insert of src/app.py, lines 167-174: append the merged
document to `taskBody` when the normalized subject classifies as task,
else to `repliesBody`. -/
def insert_merged (st : Store) (subject : String) (r : Record) : Store :=
  if classify_to_task subject then { st with taskBody := st.taskBody ++ [r] }
  else { st with repliesBody := st.repliesBody ++ [r] }

/-- The payload posted to Logflare for a successfully inserted item
(src/app.py, lines 183-184): the merged document with `log_timestamp` and
`collection_type` added. -/
def log_payload (env : Env) (item cand : Record) : Record :=
  dictSet (dictSet (pyMerge item cand) "log_timestamp" env.now)
          "collection_type" (collection_name (item_subject item))

/-- Message of a skip result entry (source wraps the subject in quotes). -/
def skip_msg (subject item_id : String) : String :=
  "Subject " ++ subject ++ " already processed. Skipping item with id " ++ item_id ++ "."

/-- Message of an extraction-failure result entry. -/
def extraction_error_msg (item_id e : String) : String :=
  "Extraction error for item with id " ++ item_id ++ ": " ++ e

/-- Message of an insertion-failure result entry. -/
def insertion_error_msg (item_id collection_type e : String) : String :=
  "Insertion error for item with id " ++ item_id ++ " into " ++ collection_type ++ ": " ++ e

/-- Message of a logging-failure (warning) result entry. -/
def logging_error_msg (item_id e : String) : String :=
  "Logging error for item with id " ++ item_id ++ ": " ++ e

/-- The body of the `for item in data` loop of `process_data` (src/app.py,
lines 140-191): dedupe check, extraction, merge, classified insert,
best-effort Logflare emission. -/
def process_item (env : Env) (st : Store) (item : Record) : ItemOut :=
  let item_id := item_ident item
  let subject := item_subject item
  if find_one_subject st.taskBody subject || find_one_subject st.repliesBody subject then
    { store := st
      results := [{ id := item_id, status := "skipped",
                    message := some (skip_msg subject item_id), collection := none }]
      emitted := [] }
  else
    match env.extract ((dget item "body").getD "") with
    | .error e =>
      { store := st
        results := [{ id := item_id, status := "error",
                      message := some (extraction_error_msg item_id e), collection := none }]
        emitted := [] }
    | .ok candidate_data =>
      match env.insertErr (pyMerge item candidate_data) with
      | some e =>
        { store := st
          results := [{ id := item_id, status := "error",
                        message := some (insertion_error_msg item_id (collection_name subject) e),
                        collection := none }]
          emitted := [] }
      | none =>
        let success : ResultEntry :=
          { id := item_id, status := "success", message := none,
            collection := some (collection_name subject) }
        match env.logErr (log_payload env item candidate_data) with
        | none =>
          { store := insert_merged st subject (pyMerge item candidate_data)
            results := [success]
            emitted := [log_payload env item candidate_data] }
        | some e =>
          { store := insert_merged st subject (pyMerge item candidate_data)
            results := [success,
                        { id := item_id, status := "warning",
                          message := some (logging_error_msg item_id e), collection := none }]
            emitted := [log_payload env item candidate_data] }

/-- Sequential iteration of the batch: items are processed strictly in order,
each starting from the stores the previous item left behind; results and
emitted payloads accumulate. -/
def run_items (env : Env) (st : Store) : List Record → ItemOut
  | [] => { store := st, results := [], emitted := [] }
  | item :: rest =>
    let out := process_item env st item
    let outs := run_items env out.store rest
    { store := outs.store, results := out.results ++ outs.results,
      emitted := out.emitted ++ outs.emitted }

/-- The parsed JSON body of `POST /process`: an array of records or a single
bare object. -/
inductive Payload where
  | arr (items : List Record)
  | obj (m : Record)
deriving DecidableEq, Repr

/-- HTTP response of `process_data`: `badRequest e` is the 400 response with
body containing the error string `e`; `ok rs` is the 200 response with body
status "completed" and the results list `rs`; `serverError` is an unhandled
exception escaping the handler (HTTP 500). -/
inductive Resp where
  | badRequest (error : String)
  | ok (results : List ResultEntry)
  | serverError
deriving DecidableEq, Repr

/-- Response of the endpoint together with the stores after the request and
the payloads posted to the Logflare sink during it. -/
structure WebOut where
  response : Resp
  store : Store
  emitted : List Record
deriving DecidableEq, Repr

/-- Python truthiness test `not data` on the parsed payload: empty list and
empty dict are falsy. -/
def pyFalsy : Payload → Bool
  | .arr l => l.isEmpty
  | .obj m => m.isEmpty

/-- The `/process` handler `process_data` (src/app.py, lines 126-194).
A falsy payload is rejected with the 400 error "No data provided".
Iterating a bare dict payload with `for item in data` yields its keys, which
are strings; `item.get("id", "unknown")` then raises `AttributeError`, which
no handler catches, so the request fails before any store or log operation. -/
def process_data (env : Env) (st : Store) (payload : Payload) : WebOut :=
  if pyFalsy payload then
    { response := .badRequest "No data provided", store := st, emitted := [] }
  else
    match payload with
    | .arr items =>
      let out := run_items env st items
      { response := .ok out.results, store := out.store, emitted := out.emitted }
    | .obj _ => { response := .serverError, store := st, emitted := [] }

/-- Lookup in an appended record finds a binding of the left part first
(Python dict semantics of `pyMerge`). -/
theorem dget_append_some {a b : Record} {k v : String} (h : dget a k = some v) :
    dget (a ++ b) k = some v := by
  induction a with
  | nil => simp [dget] at h
  | cons p rest ih =>
    obtain ⟨k1, v1⟩ := p
    rw [List.cons_append]
    by_cases hk : k1 = k
    · subst hk
      simp [dget] at h ⊢
      exact h
    · simp [dget, hk] at h ⊢
      exact ih h

/-- Lookup in an appended record falls through to the right part when the
left part has no binding for the key. -/
theorem dget_append_none {a b : Record} {k : String} (h : dget a k = none) :
    dget (a ++ b) k = dget b k := by
  induction a with
  | nil => simp
  | cons p rest ih =>
    obtain ⟨k1, v1⟩ := p
    rw [List.cons_append]
    by_cases hk : k1 = k
    · subst hk
      simp [dget] at h
    · simp [dget, hk] at h ⊢
      exact ih h

/-- The record `r` was appended to exactly one of the two collections of
`st`, the other one being untouched. -/
def stored_merged (st st' : Store) (r : Record) : Prop :=
  (st'.taskBody = st.taskBody ++ [r] ∧ st'.repliesBody = st.repliesBody) ∨
  (st'.taskBody = st.taskBody ∧ st'.repliesBody = st.repliesBody ++ [r])

instance (st st' : Store) (r : Record) : Decidable (stored_merged st st' r) := by
  unfold stored_merged
  infer_instance

/-- Reduction of the loop body on a duplicate hit: the stores are untouched,
one skipped result entry is appended, and nothing is posted to the log sink. -/
theorem process_item_skip_eq (env : Env) (st : Store) (item : Record)
    (h : (find_one_subject st.taskBody (item_subject item)
          || find_one_subject st.repliesBody (item_subject item)) = true) :
    process_item env st item =
      { store := st
        results := [{ id := item_ident item, status := "skipped",
                      message := some (skip_msg (item_subject item) (item_ident item)),
                      collection := none }]
        emitted := [] } := by
  simp [process_item, h]

/-- Reduction of the loop body on an extraction failure: the stores are
untouched, one error result entry is appended, and nothing is posted to the
log sink. -/
theorem process_item_extract_error_eq (env : Env) (st : Store) (item : Record) (e : String)
    (h1 : find_one_subject st.taskBody (item_subject item) = false)
    (h2 : find_one_subject st.repliesBody (item_subject item) = false)
    (hx : env.extract ((dget item "body").getD "") = .error e) :
    process_item env st item =
      { store := st
        results := [{ id := item_ident item, status := "error",
                      message := some (extraction_error_msg (item_ident item) e),
                      collection := none }]
        emitted := [] } := by
  simp [process_item, h1, h2, hx]

/-- Reduction of the loop body on the success path (no duplicate, extraction
succeeded, insert succeeded): the merged record is appended to the classified
collection, its payload is posted to the log sink, and the results are one
success entry, followed by a warning entry when the emission failed. -/
theorem process_item_success_eq (env : Env) (st : Store) (item cand : Record)
    (h1 : find_one_subject st.taskBody (item_subject item) = false)
    (h2 : find_one_subject st.repliesBody (item_subject item) = false)
    (hx : env.extract ((dget item "body").getD "") = .ok cand)
    (hins : env.insertErr (pyMerge item cand) = none) :
    process_item env st item =
      match env.logErr (log_payload env item cand) with
      | none =>
        { store := insert_merged st (item_subject item) (pyMerge item cand)
          results := [{ id := item_ident item, status := "success", message := none,
                        collection := some (collection_name (item_subject item)) }]
          emitted := [log_payload env item cand] }
      | some e =>
        { store := insert_merged st (item_subject item) (pyMerge item cand)
          results := [{ id := item_ident item, status := "success", message := none,
                        collection := some (collection_name (item_subject item)) },
                      { id := item_ident item, status := "warning",
                        message := some (logging_error_msg (item_ident item) e),
                        collection := none }]
          emitted := [log_payload env item cand] } := by
  cases hlog : env.logErr (log_payload env item cand) <;>
    simp [process_item, h1, h2, hx, hins, hlog]

/-- Batch processing is compositional: a batch `xs ++ ys` behaves as `xs`
followed by `ys` started from the stores `xs` left behind. -/
theorem run_items_append (env : Env) (st : Store) (xs ys : List Record) :
    run_items env st (xs ++ ys) =
      { store := (run_items env (run_items env st xs).store ys).store
        results := (run_items env st xs).results
          ++ (run_items env (run_items env st xs).store ys).results
        emitted := (run_items env st xs).emitted
          ++ (run_items env (run_items env st xs).store ys).emitted } := by
  induction xs generalizing st with
  | nil => simp [run_items]
  | cons x xs ih => simp [run_items, ih, List.append_assoc]

/-- On the success path (no duplicate hit, extraction returned `cand`, the
insert did not raise) the merged record `pyMerge item cand` is appended to
exactly one of the two collections, whatever the log sink does. -/
theorem process_item_stores_merged (env : Env) (st : Store) (item cand : Record)
    (h1 : find_one_subject st.taskBody (item_subject item) = false)
    (h2 : find_one_subject st.repliesBody (item_subject item) = false)
    (hx : env.extract ((dget item "body").getD "") = .ok cand)
    (hins : env.insertErr (pyMerge item cand) = none) :
    stored_merged st (process_item env st item).store (pyMerge item cand) := by
  rw [process_item_success_eq env st item cand h1 h2 hx hins]
  cases hlog : env.logErr (log_payload env item cand) <;>
    by_cases hc : classify_to_task (item_subject item) = true <;>
      simp [stored_merged, insert_merged, hc]

/-! ### C1 — idempotence on subject

The code normalizes the dedupe probe (`strip().lower()`) but stores the
document with its original, unnormalized subject, and the MongoDB lookup is
an exact string match.  Resubmitting an item whose stored subject is not
already lowercase therefore passes the duplicate filter again: a second
record is stored and the second submission is reported as success, not as
skipped.  The evaluation below runs the pipeline twice on the very same
item. -/

/-- Oracle instantiation for the C1 evaluation: extraction returns an empty
mapping, insert and log emission always succeed. -/
def env_c1 : Env :=
  { extract := fun _ => .ok [], insertErr := fun _ => none, logErr := fun _ => none,
    now := "2025-01-01T00:00:00Z" }

/-- The failing input of C1: a record whose subject is not all-lowercase. -/
def item_c1 : Record :=
  [("id", "1"), ("subject", "Interview Support ABC"), ("body", "resume text")]

/-- C1: the claimed idempotence on subject fails on the code.  After a first
submission stores the record (with its original mixed-case subject), a
second submission of the very same subject is not skipped: the lowered
probe "interview support abc" never matches the stored subject
"Interview Support ABC", so a second record is stored and the second
submission is reported with status success. -/
theorem C1_idempotence_fails_on_stored_case :
    (process_data env_c1 { taskBody := [], repliesBody := [] } (.arr [item_c1])).store =
      { taskBody := [item_c1], repliesBody := [] } ∧
    (process_data env_c1 { taskBody := [item_c1], repliesBody := [] } (.arr [item_c1])).store =
      { taskBody := [item_c1, item_c1], repliesBody := [] } ∧
    (process_data env_c1 { taskBody := [item_c1], repliesBody := [] } (.arr [item_c1])).response =
      .ok [{ id := "1", status := "success", message := none, collection := some "taskBody" }] := by
  decide

/-! ### C2 — classification rule -/

/-- Follows the words of the spec classification rule, for comparison with
the code: destination(S) = primary iff lower(S) contains
"interview support" and lower(S) does not start with "re:". -/
def specDestinationPrimary (s : String) : Bool :=
  pyContains (pyLower s) "interview support" && !(pyStartsWith (pyLower s) "re:")

/-- Oracles for the C2 counterexample: extraction returns an empty mapping,
insert and log emission always succeed. -/
def env_c2 : Env :=
  { extract := fun _ => .ok [], insertErr := fun _ => none, logErr := fun _ => none, now := "T2" }

/-- Counterexample input for C2: the subject has leading whitespace before
the reply marker. -/
def item_c2 : Record := [("id", "2"), ("subject", " re: interview support"), ("body", "b")]

/-- C2 counterexample: for the subject " re: interview support", the spec
condition (on the merely lowered subject) chooses primary, since lower(S)
starts with a space and not with "re:"; but the code classifies on the
stripped lowered subject, which does start with "re:", and writes the
record to the secondary collection `repliesBody`. -/
theorem C2_classification_counterexample :
    specDestinationPrimary " re: interview support" = true ∧
    (process_data env_c2 { taskBody := [], repliesBody := [] } (.arr [item_c2])).store.taskBody = [] ∧
    (process_data env_c2 { taskBody := [], repliesBody := [] } (.arr [item_c2])).store.repliesBody = [item_c2] := by
  decide

/-- C2 (amended): for every item that reaches the write (no duplicate hit,
extraction and insert succeeded), the record is written to the primary
collection `taskBody` iff the lower-cased whitespace-trimmed subject
contains "interview support" and does not start with "re:"; otherwise it is
written to the secondary collection `repliesBody`. -/
theorem C2_classification_rule_trimmed (env : Env) (st : Store) (item cand : Record)
    (h1 : find_one_subject st.taskBody (item_subject item) = false)
    (h2 : find_one_subject st.repliesBody (item_subject item) = false)
    (hx : env.extract ((dget item "body").getD "") = .ok cand)
    (hins : env.insertErr (pyMerge item cand) = none) :
    (((process_item env st item).store.taskBody = st.taskBody ++ [pyMerge item cand] ∧
      (process_item env st item).store.repliesBody = st.repliesBody)
     ↔ (pyContains (pyLower (pyStrip ((dget item "subject").getD ""))) "interview support" = true ∧
        pyStartsWith (pyLower (pyStrip ((dget item "subject").getD ""))) "re:" = false)) ∧
    (((process_item env st item).store.taskBody = st.taskBody ∧
      (process_item env st item).store.repliesBody = st.repliesBody ++ [pyMerge item cand])
     ↔ ¬(pyContains (pyLower (pyStrip ((dget item "subject").getD ""))) "interview support" = true ∧
         pyStartsWith (pyLower (pyStrip ((dget item "subject").getD ""))) "re:" = false)) := by
  have hiff : (pyContains (pyLower (pyStrip ((dget item "subject").getD ""))) "interview support" = true ∧
      pyStartsWith (pyLower (pyStrip ((dget item "subject").getD ""))) "re:" = false) ↔
      classify_to_task (pyLower (pyStrip ((dget item "subject").getD ""))) = true := by
    simp [classify_to_task, Bool.and_eq_true, Bool.not_eq_true']
  rw [process_item_success_eq env st item cand h1 h2 hx hins, hiff]
  cases hlog : env.logErr (log_payload env item cand) <;>
    by_cases hc : classify_to_task (pyLower (pyStrip ((dget item "subject").getD ""))) = true <;>
      simp [insert_merged, item_subject, hc]

/-- Oracles for the C2 witness. -/
def env_w2 : Env :=
  { extract := fun _ => .ok [("Technology", "Java")], insertErr := fun _ => none,
    logErr := fun _ => none, now := "W2" }

/-- Concrete item for the C2 witness: a fresh interview-support subject. -/
def item_w2 : Record := [("id", "w2"), ("subject", "Interview Support Pat"), ("body", "b")]

/-- Witness for C2 (amended) at a concrete input: the classification
condition holds for "Interview Support Pat", and the merged record indeed
lands in `taskBody`. -/
theorem C2_classification_rule_trimmed_witness :
    (process_item env_w2 { taskBody := [], repliesBody := [] } item_w2).store.taskBody =
      [pyMerge item_w2 [("Technology", "Java")]] ∧
    (process_item env_w2 { taskBody := [], repliesBody := [] } item_w2).store.repliesBody = [] :=
  (C2_classification_rule_trimmed env_w2 { taskBody := [], repliesBody := [] } item_w2
    [("Technology", "Java")] rfl rfl rfl rfl).1.mpr (by decide)

/-! ### C3 — merge precedence -/

/-- Oracles for the C3 witness: extraction returns a capitalized candidate
name that collides with a key of the inbound record. -/
def env_c3 : Env :=
  { extract := fun _ => .ok [("Candidate Name", "Jane Doe")], insertErr := fun _ => none,
    logErr := fun _ => none, now := "W3" }

/-- Concrete item for the C3 witness; it carries its own value at the
colliding key "Candidate Name". -/
def item_c3 : Record :=
  [("id", "w3"), ("subject", "Follow up notes"), ("body", "b"), ("Candidate Name", "jane")]

/-- C3: merge precedence.  For every inbound record and extracted mapping
sharing a key `k`, the merged record that is persisted has the extracted
value at `k` (`dget cand k`), not the inbound one; and that merged record
`pyMerge item cand` is exactly what is appended to one of the two
collections. -/
theorem C3_merge_precedence (env : Env) (st : Store) (item cand : Record) (k v : String)
    (h1 : find_one_subject st.taskBody (item_subject item) = false)
    (h2 : find_one_subject st.repliesBody (item_subject item) = false)
    (hx : env.extract ((dget item "body").getD "") = .ok cand)
    (hins : env.insertErr (pyMerge item cand) = none)
    (hk : dget cand k = some v) :
    dget (pyMerge item cand) k = some v ∧
    stored_merged st (process_item env st item).store (pyMerge item cand) :=
  ⟨dget_append_some hk, process_item_stores_merged env st item cand h1 h2 hx hins⟩

/-- Witness for C3 at a concrete input: the extracted "Candidate Name"
value "Jane Doe" wins over the inbound value "jane". -/
theorem C3_merge_precedence_witness :
    dget (pyMerge item_c3 [("Candidate Name", "Jane Doe")]) "Candidate Name" = some "Jane Doe" ∧
    stored_merged { taskBody := [], repliesBody := [] }
      (process_item env_c3 { taskBody := [], repliesBody := [] } item_c3).store
      (pyMerge item_c3 [("Candidate Name", "Jane Doe")]) :=
  C3_merge_precedence env_c3 { taskBody := [], repliesBody := [] } item_c3
    [("Candidate Name", "Jane Doe")] "Candidate Name" "Jane Doe" rfl rfl rfl rfl rfl

/-! ### C4 — audit emission on skip

The skip branch of the loop only prints locally and appends a result entry;
it never calls `log_to_logflare`.  No audit entry of any type reaches the
external log sink for a skipped item. -/

/-- Oracles for the C4 counterexample. -/
def env_c4 : Env :=
  { extract := fun _ => .ok [], insertErr := fun _ => none, logErr := fun _ => none, now := "T4" }

/-- Store for the C4 counterexample: the subject already exists in
`taskBody` (in normalized form, so the probe hits). -/
def st_c4 : Store :=
  { taskBody := [[("subject", "interview support jane")]], repliesBody := [] }

/-- Item for the C4 counterexample: same subject up to case and padding. -/
def item_c4 : Record := [("id", "4"), ("subject", "  Interview Support Jane "), ("body", "b")]

/-- C4 counterexample: a duplicate submission is skipped, but the number of
audit entries emitted to the log sink is zero, not one — refuting that
every skip produces exactly one audit entry of type skip. -/
theorem C4_skip_without_audit_counterexample :
    (process_data env_c4 st_c4 (.arr [item_c4])).response =
      .ok [{ id := "4", status := "skipped",
             message := some (skip_msg "interview support jane" "4"), collection := none }] ∧
    (process_data env_c4 st_c4 (.arr [item_c4])).emitted = [] ∧
    (process_data env_c4 st_c4 (.arr [item_c4])).store = st_c4 := by
  decide

/-- C4 (amended): a duplicate skip emits nothing to the external log sink;
the skip is recorded only as a per-item result entry with status skipped
whose message contains the normalized subject, and the stores are left
untouched. -/
theorem C4_skip_emits_no_audit_entry (env : Env) (st : Store) (item : Record)
    (h : (find_one_subject st.taskBody (item_subject item)
          || find_one_subject st.repliesBody (item_subject item)) = true) :
    (process_item env st item).emitted = [] ∧
    (process_item env st item).results =
      [{ id := item_ident item, status := "skipped",
         message := some (skip_msg (item_subject item) (item_ident item)),
         collection := none }] ∧
    (process_item env st item).store = st := by
  rw [process_item_skip_eq env st item h]
  exact ⟨rfl, rfl, rfl⟩

/-- Oracles for the C4 witness. -/
def env_w4 : Env :=
  { extract := fun _ => .ok [], insertErr := fun _ => none, logErr := fun _ => none, now := "W4" }

/-- Store for the C4 witness: the subject "hello" already sits in
`repliesBody`. -/
def st_w4 : Store := { taskBody := [], repliesBody := [[("subject", "hello")]] }

/-- Item for the C4 witness. -/
def item_w4 : Record := [("id", "w4"), ("subject", "Hello"), ("body", "b")]

/-- Witness for C4 (amended) at a concrete duplicate input. -/
theorem C4_skip_emits_no_audit_entry_witness :
    (process_item env_w4 st_w4 item_w4).emitted = [] ∧
    (process_item env_w4 st_w4 item_w4).results =
      [{ id := "w4", status := "skipped", message := some (skip_msg "hello" "w4"),
         collection := none }] ∧
    (process_item env_w4 st_w4 item_w4).store = st_w4 :=
  C4_skip_emits_no_audit_entry env_w4 st_w4 item_w4 (by decide)

/-! ### C5 — single-record convenience

There is no wrapping of a bare object into a one-element array: the handler
iterates the parsed payload directly, and iterating a dict yields its keys.
The first key is a string, on which `.get` raises an uncaught
`AttributeError`, failing the whole request. -/

/-- Oracles for the C5 counterexample. -/
def env_c5 : Env :=
  { extract := fun _ => .ok [], insertErr := fun _ => none, logErr := fun _ => none, now := "T5" }

/-- A record-shaped mapping posted bare for the C5 counterexample. -/
def m_c5 : Record := [("id", "5"), ("subject", "Interview Support X"), ("body", "b")]

/-- C5 counterexample: posting the bare object fails the request with an
unhandled error, while posting the one-element array processes the item and
reports success — the two submissions do not produce the same processing or
the same per-item results. -/
theorem C5_bare_object_counterexample :
    (process_data env_c5 { taskBody := [], repliesBody := [] } (.obj m_c5)).response = .serverError ∧
    (process_data env_c5 { taskBody := [], repliesBody := [] } (.arr [m_c5])).response =
      .ok [{ id := "5", status := "success", message := none, collection := some "taskBody" }] ∧
    process_data env_c5 { taskBody := [], repliesBody := [] } (.obj m_c5) ≠
      process_data env_c5 { taskBody := [], repliesBody := [] } (.arr [m_c5]) := by
  decide

/-- C5 (amended): a bare nonempty object is not treated like a one-element
array; iterating it yields its keys and the handler fails with an unhandled
error before any store write or log emission (an empty object is rejected
with 400 like an empty array). -/
theorem C5_bare_object_is_server_error (env : Env) (st : Store) (m : Record) (h : m ≠ []) :
    process_data env st (.obj m) = { response := .serverError, store := st, emitted := [] } := by
  cases m with
  | nil => exact absurd rfl h
  | cons p l => rfl

/-- Oracles for the C5 witness. -/
def env_w5 : Env :=
  { extract := fun _ => .ok [], insertErr := fun _ => none, logErr := fun _ => none, now := "W5" }

/-- Witness for C5 (amended) at a concrete one-binding object. -/
theorem C5_bare_object_is_server_error_witness :
    process_data env_w5 { taskBody := [], repliesBody := [] } (.obj [("k", "v")]) =
      { response := .serverError, store := { taskBody := [], repliesBody := [] }, emitted := [] } :=
  C5_bare_object_is_server_error env_w5 { taskBody := [], repliesBody := [] } [("k", "v")] (by decide)

/-! ### C6 — log-sink failure policy -/

/-- Oracles for the C6 witness: insert succeeds, the log sink always
fails. -/
def env_c6 : Env :=
  { extract := fun _ => .ok [], insertErr := fun _ => none,
    logErr := fun _ => some "sink down", now := "W6" }

/-- Item for the C6 witness. -/
def item_c6 : Record := [("id", "w6"), ("subject", "Interview Support Kim"), ("body", "b")]

/-- C6: when the store write succeeds and the audit emission fails, the
item is reported with a warning entry carrying the logging error, the
merged record remains stored (the emission failure does not undo the
write), and the batch continues with the remaining items exactly as the
loop prescribes. -/
theorem C6_log_failure_is_warning_only (env : Env) (st : Store) (item cand : Record)
    (e : String) (rest : List Record)
    (h1 : find_one_subject st.taskBody (item_subject item) = false)
    (h2 : find_one_subject st.repliesBody (item_subject item) = false)
    (hx : env.extract ((dget item "body").getD "") = .ok cand)
    (hins : env.insertErr (pyMerge item cand) = none)
    (hlog : env.logErr (log_payload env item cand) = some e) :
    stored_merged st (process_item env st item).store (pyMerge item cand) ∧
    { id := item_ident item, status := "warning",
      message := some (logging_error_msg (item_ident item) e),
      collection := none } ∈ (process_item env st item).results ∧
    (run_items env st (item :: rest)).results =
      (process_item env st item).results ++
        (run_items env (process_item env st item).store rest).results := by
  refine ⟨process_item_stores_merged env st item cand h1 h2 hx hins, ?_, rfl⟩
  rw [process_item_success_eq env st item cand h1 h2 hx hins, hlog]
  simp

/-- Witness for C6 at a concrete input with a failing log sink. -/
theorem C6_log_failure_is_warning_only_witness :
    stored_merged { taskBody := [], repliesBody := [] }
      (process_item env_c6 { taskBody := [], repliesBody := [] } item_c6).store
      (pyMerge item_c6 []) ∧
    { id := "w6", status := "warning",
      message := some (logging_error_msg "w6" "sink down"),
      collection := none } ∈ (process_item env_c6 { taskBody := [], repliesBody := [] } item_c6).results ∧
    (run_items env_c6 { taskBody := [], repliesBody := [] } [item_c6]).results =
      (process_item env_c6 { taskBody := [], repliesBody := [] } item_c6).results ++
        (run_items env_c6 (process_item env_c6 { taskBody := [], repliesBody := [] } item_c6).store []).results :=
  C6_log_failure_is_warning_only env_c6 { taskBody := [], repliesBody := [] } item_c6 []
    "sink down" [] rfl rfl rfl rfl rfl

/-! ### C7 — extraction failure isolation -/

/-- C7: in a batch `xs ++ x :: ys` where the extraction call fails for `x`
(and `x` is not a duplicate, so extraction is actually attempted), the items
of `xs` and `ys` are processed and reported exactly as they would be
without `x`: `x` contributes a single error result entry, leaves the stores
untouched (no record is inserted for it), and emits nothing. -/
theorem C7_extraction_failure_isolated (env : Env) (st : Store) (xs ys : List Record)
    (x : Record) (e : String)
    (h1 : find_one_subject (run_items env st xs).store.taskBody (item_subject x) = false)
    (h2 : find_one_subject (run_items env st xs).store.repliesBody (item_subject x) = false)
    (hx : env.extract ((dget x "body").getD "") = .error e) :
    run_items env st (xs ++ x :: ys) =
      { store := (run_items env (run_items env st xs).store ys).store
        results := (run_items env st xs).results
          ++ { id := item_ident x, status := "error",
               message := some (extraction_error_msg (item_ident x) e),
               collection := none }
            :: (run_items env (run_items env st xs).store ys).results
        emitted := (run_items env st xs).emitted
          ++ (run_items env (run_items env st xs).store ys).emitted } := by
  rw [run_items_append env st xs (x :: ys)]
  have hpx := process_item_extract_error_eq env (run_items env st xs).store x e h1 h2 hx
  simp [run_items, hpx]

/-- Oracles for the C7 witness: extraction fails exactly on the body
"bad". -/
def env_w7 : Env :=
  { extract := fun b => if b == "bad" then .error "boom" else .ok [],
    insertErr := fun _ => none, logErr := fun _ => none, now := "W7" }

/-- First item of the C7 witness batch (processed normally). -/
def item_w7a : Record := [("id", "a"), ("subject", "First Notes"), ("body", "ok")]

/-- Middle item of the C7 witness batch (its extraction fails). -/
def item_w7b : Record := [("id", "n"), ("subject", "Second Notes"), ("body", "bad")]

/-- Last item of the C7 witness batch (processed normally). -/
def item_w7c : Record := [("id", "c"), ("subject", "Interview Support Ava"), ("body", "ok")]

/-- Witness for C7 on a concrete batch of size three whose middle item
fails extraction: the two other items are stored and reported, the middle
one yields only an error entry. -/
theorem C7_extraction_failure_isolated_witness :
    run_items env_w7 { taskBody := [], repliesBody := [] } ([item_w7a] ++ item_w7b :: [item_w7c]) =
      { store := { taskBody := [[("id", "c"), ("subject", "Interview Support Ava"), ("body", "ok")]],
                   repliesBody := [[("id", "a"), ("subject", "First Notes"), ("body", "ok")]] }
        results := [{ id := "a", status := "success", message := none, collection := some "repliesBody" },
                    { id := "n", status := "error",
                      message := some (extraction_error_msg "n" "boom"), collection := none },
                    { id := "c", status := "success", message := none, collection := some "taskBody" }]
        emitted := [[("collection_type", "repliesBody"), ("log_timestamp", "W7"),
                     ("id", "a"), ("subject", "First Notes"), ("body", "ok")],
                    [("collection_type", "taskBody"), ("log_timestamp", "W7"),
                     ("id", "c"), ("subject", "Interview Support Ava"), ("body", "ok")]] } := by
  rw [C7_extraction_failure_isolated env_w7 { taskBody := [], repliesBody := [] }
      [item_w7a] [item_w7c] item_w7b "boom" (by decide) (by decide) rfl]
  decide

/-! ### C8 — empty batch rejection -/

/-- C8: posting an empty array or an empty object yields the 400 response
with body error "No data provided", and neither a store write nor an audit
emission occurs. -/
theorem C8_empty_batch_rejection (env : Env) (st : Store) :
    process_data env st (.arr []) =
      { response := .badRequest "No data provided", store := st, emitted := [] } ∧
    process_data env st (.obj []) =
      { response := .badRequest "No data provided", store := st, emitted := [] } :=
  ⟨rfl, rfl⟩

/-! ### C9 — merge frame condition

The merge preserves only the inbound fields whose keys the extraction
output does not bind: when the extraction output itself carries a "subject"
(or "id") key, that value overwrites the inbound one in the persisted
record, because the merge lets the extracted mapping win on every
collision. -/

/-- Oracles for the C9 counterexample: extraction returns a mapping that
binds the key "subject". -/
def env_c9 : Env :=
  { extract := fun _ => .ok [("subject", "hijacked")], insertErr := fun _ => none,
    logErr := fun _ => none, now := "T9" }

/-- Item for the C9 counterexample. -/
def item_c9 : Record := [("id", "9"), ("subject", "Interview Support Yan"), ("body", "b")]

/-- C9 counterexample: the inbound subject is "Interview Support Yan", but
the persisted record reads "hijacked" at the key "subject" — the subject of
the record is not unconditionally preserved by the merge. -/
theorem C9_subject_frame_counterexample :
    dget item_c9 "subject" = some "Interview Support Yan" ∧
    (process_data env_c9 { taskBody := [], repliesBody := [] } (.arr [item_c9])).store.taskBody =
      [[("subject", "hijacked"), ("id", "9"), ("subject", "Interview Support Yan"), ("body", "b")]] ∧
    dget ((process_data env_c9 { taskBody := [], repliesBody := [] } (.arr [item_c9])).store.taskBody.headD [])
        "subject" = some "hijacked" := by
  decide

/-- C9 (amended): the persisted merged record preserves, with its original
value, every inbound field — subject and id included — whose key the
extracted mapping does not bind; and that merged record is exactly what is
appended to one of the two collections. -/
theorem C9_merge_frame_condition (env : Env) (st : Store) (item cand : Record) (k : String)
    (h1 : find_one_subject st.taskBody (item_subject item) = false)
    (h2 : find_one_subject st.repliesBody (item_subject item) = false)
    (hx : env.extract ((dget item "body").getD "") = .ok cand)
    (hins : env.insertErr (pyMerge item cand) = none)
    (hk : dget cand k = none) :
    dget (pyMerge item cand) k = dget item k ∧
    stored_merged st (process_item env st item).store (pyMerge item cand) :=
  ⟨dget_append_none hk, process_item_stores_merged env st item cand h1 h2 hx hins⟩

/-- Oracles for the C9 witness: the extracted mapping does not bind
"subject". -/
def env_w9 : Env :=
  { extract := fun _ => .ok [("Gender", "F")], insertErr := fun _ => none,
    logErr := fun _ => none, now := "W9" }

/-- Item for the C9 witness. -/
def item_w9 : Record := [("id", "w9"), ("subject", "Interview Support Lee"), ("body", "b")]

/-- Witness for C9 (amended) at a concrete input: the subject survives the
merge when extraction does not bind it. -/
theorem C9_merge_frame_condition_witness :
    dget (pyMerge item_w9 [("Gender", "F")]) "subject" = dget item_w9 "subject" ∧
    stored_merged { taskBody := [], repliesBody := [] }
      (process_item env_w9 { taskBody := [], repliesBody := [] } item_w9).store
      (pyMerge item_w9 [("Gender", "F")]) :=
  C9_merge_frame_condition env_w9 { taskBody := [], repliesBody := [] } item_w9
    [("Gender", "F")] "subject" rfl rfl rfl rfl rfl

/-! ### C10 — double result entry on success plus logging failure -/

/-- Oracles for the C10 witness: insert succeeds, the log sink always
fails with "http 500". -/
def env_c10 : Env :=
  { extract := fun _ => .ok [("State", "NJ")], insertErr := fun _ => none,
    logErr := fun _ => some "http 500", now := "W10" }

/-- Item for the C10 witness; its subject is a reply, so it goes to
`repliesBody`. -/
def item_c10 : Record := [("id", "w10"), ("subject", "RE: Interview Support Kim"), ("body", "b")]

/-- C10: an item whose insert succeeds and whose Logflare emission fails
contributes exactly two result entries, in order: first a success entry
carrying the collection name, then a warning entry carrying the logging
error message. -/
theorem C10_success_then_warning_entries (env : Env) (st : Store) (item cand : Record)
    (e : String)
    (h1 : find_one_subject st.taskBody (item_subject item) = false)
    (h2 : find_one_subject st.repliesBody (item_subject item) = false)
    (hx : env.extract ((dget item "body").getD "") = .ok cand)
    (hins : env.insertErr (pyMerge item cand) = none)
    (hlog : env.logErr (log_payload env item cand) = some e) :
    (process_item env st item).results =
      [{ id := item_ident item, status := "success", message := none,
         collection := some (collection_name (item_subject item)) },
       { id := item_ident item, status := "warning",
         message := some (logging_error_msg (item_ident item) e), collection := none }] := by
  rw [process_item_success_eq env st item cand h1 h2 hx hins, hlog]

/-- Witness for C10 at a concrete input. -/
theorem C10_success_then_warning_entries_witness :
    (process_item env_c10 { taskBody := [], repliesBody := [] } item_c10).results =
      [{ id := "w10", status := "success", message := none, collection := some "repliesBody" },
       { id := "w10", status := "warning",
         message := some (logging_error_msg "w10" "http 500"), collection := none }] :=
  C10_success_then_warning_entries env_c10 { taskBody := [], repliesBody := [] } item_c10
    [("State", "NJ")] "http 500" rfl rfl rfl rfl rfl

end DataExtraction
